import Mathlib

/-!
Shallow embedding of the memory subsystem of the voice-chat repository
(src/memory_system.py and src/memory_server.py) and verification of the
frozen claims about it.

Modelling conventions:
* SQLite tables become Lean lists kept in rowid (insertion) order.
* `datetime.now()` values are threaded as explicit `now : String` arguments
  (ISO-8601 strings; SQLite compares TEXT columns bytewise, which on these
  strings is the lexicographic order on characters, i.e. the Mathlib
  `LinearOrder String`).
* `REAL importance_score` is modelled as `Rat`: the code only ever compares
  importance scores, and for the literals involved (1.0, 1.5, ...) rational
  comparison agrees with IEEE comparison.
* SQL `LIKE` is modelled by `likeMatch` below with SQLite default semantics:
  `%` matches any character sequence, `_` any single character, and ASCII
  letters compare case-insensitively.
* Python `str.lower` is modelled by `strLower` (ASCII folding); the
  fixed extraction patterns and the concrete scenario inputs only require
  ASCII folding.
* Python regular expressions appear only as the fixed pattern table of
  `_extract_profile_info`; each pattern there has the shape
  literal-prefix + greedy `(\w+)` or `(\d+)` + literal-suffix, captured by
  the `Pat` structure and the scanning matcher `searchPat` (Python
  `re.search` scans for the leftmost position at which the whole pattern
  matches; the suffixes involved never start with a word or digit
  character, so the greedy maximal-run match needs no backtracking).
-/

/-- One row of the `conversations` table (column order as in the schema);
`id` is the SQLite AUTOINCREMENT rowid, assigned at insert. -/
structure ConvRow where
  id : Nat
  timestamp : String
  session_id : String
  user_message : String
  assistant_response : String
  importance_score : Rat
  deriving DecidableEq, Repr

/-- One row of the reserved `memory_summaries` table (never populated by the
current code, kept to model the dead-but-valid relation). -/
structure SummaryRow where
  id : Nat
  session_id : String
  summary_text : String
  start_timestamp : String
  end_timestamp : String
  conversation_count : Nat
  deriving DecidableEq, Repr

/-- One row of the `user_profile` table; `key` is the primary key. -/
structure ProfileRow where
  key : String
  value : String
  last_updated : String
  deriving DecidableEq, Repr

/-- The persistent state behind `MemoryDatabase`: the three relations, in
rowid order, plus the AUTOINCREMENT counter of `conversations` (kept across
`DELETE FROM`, as AUTOINCREMENT does). -/
structure MemoryDatabase where
  conversations : List ConvRow
  memory_summaries : List SummaryRow
  user_profile : List ProfileRow
  next_conversation_id : Nat
  deriving DecidableEq, Repr

/-- The empty store produced by `init_database` on a fresh file. -/
def emptyDb : MemoryDatabase := ⟨[], [], [], 1⟩

/-! ### SQLite LIKE -/

/-- Character comparison used by SQLite default `LIKE`: ASCII letters fold
case, everything else compares exactly. -/
def likeCharEq (p c : Char) : Bool := p.toLower == c.toLower

/-- SQLite `LIKE` pattern matching over character lists: `%` matches any
sequence, `_` matches one character, other characters via `likeCharEq`.
Recursion is structural on the pattern. -/
def likeMatch : List Char → List Char → Bool
  | [], cs => cs.isEmpty
  | '_' :: ps, cs =>
    match cs with
    | [] => false
    | _ :: cs' => likeMatch ps cs'
  | '%' :: ps, cs => cs.tails.any (fun t => likeMatch ps t)
  | p :: ps, cs =>
    match cs with
    | [] => false
    | c :: cs' => likeCharEq p c && likeMatch ps cs'

/-- The test `column LIKE '%' || q || '%'` performed by
`search_conversations` on each text column. -/
def likePat (q s : String) : Bool :=
  likeMatch ('%' :: (q.toList ++ ['%'])) s.toList

/-- Row predicate of the search query:
`user_message LIKE ? OR assistant_response LIKE ?`. -/
def likeRow (q : String) (r : ConvRow) : Bool :=
  likePat q r.user_message || likePat q r.assistant_response

/-! ### ORDER BY relations -/

/-- `ORDER BY timestamp DESC` of `get_recent_conversations`. -/
def recentRel (a b : ConvRow) : Prop := b.timestamp ≤ a.timestamp

instance : DecidableRel recentRel := fun a b =>
  inferInstanceAs (Decidable (b.timestamp ≤ a.timestamp))

instance : IsTotal ConvRow recentRel :=
  ⟨fun a b => le_total b.timestamp a.timestamp⟩

instance : IsTrans ConvRow recentRel :=
  ⟨fun _ _ _ h1 h2 => le_trans h2 h1⟩

/-- `ORDER BY importance_score DESC, timestamp DESC` of
`search_conversations`. -/
def searchRel (a b : ConvRow) : Prop :=
  b.importance_score < a.importance_score ∨
    (a.importance_score = b.importance_score ∧ b.timestamp ≤ a.timestamp)

instance : DecidableRel searchRel := fun a b =>
  inferInstanceAs (Decidable (b.importance_score < a.importance_score ∨
    (a.importance_score = b.importance_score ∧ b.timestamp ≤ a.timestamp)))

instance : IsTotal ConvRow searchRel := by
  refine ⟨fun a b => ?_⟩
  rcases lt_trichotomy a.importance_score b.importance_score with h | h | h
  · exact Or.inr (Or.inl h)
  · rcases le_total b.timestamp a.timestamp with ht | ht
    · exact Or.inl (Or.inr ⟨h, ht⟩)
    · exact Or.inr (Or.inr ⟨h.symm, ht⟩)
  · exact Or.inl (Or.inl h)

instance : IsTrans ConvRow searchRel := by
  refine ⟨fun a b c h1 h2 => ?_⟩
  rcases h1 with h1 | ⟨h1e, h1t⟩
  · rcases h2 with h2 | ⟨h2e, _⟩
    · exact Or.inl (lt_trans h2 h1)
    · exact Or.inl (h2e ▸ h1)
  · rcases h2 with h2 | ⟨h2e, h2t⟩
    · exact Or.inl (h1e ▸ h2)
    · exact Or.inr ⟨h1e.trans h2e, le_trans h2t h1t⟩

/-! ### MemoryDatabase operations (src/memory_system.py lines 61-147) -/

namespace MemoryDatabase

/-- `store_conversation`: INSERT into `conversations`, returning
`cursor.lastrowid`.  The Python signature defaults `session_id` to
`"default"` and `importance` to `1.0`; callers in this development always
pass them explicitly. -/
def store_conversation (db : MemoryDatabase) (user_msg assistant_msg : String)
    (session_id : String) (importance : Rat) (now : String) :
    Nat × MemoryDatabase :=
  (db.next_conversation_id,
   { db with
       conversations := db.conversations ++
         [⟨db.next_conversation_id, now, session_id, user_msg, assistant_msg,
           importance⟩],
       next_conversation_id := db.next_conversation_id + 1 })

/-- `get_recent_conversations`: rows with the given `session_id`, ordered by
`timestamp DESC`, limited.  The Python defaults are `limit=10`,
`session_id="default"`; callers here pass both explicitly. -/
def get_recent_conversations (db : MemoryDatabase) (limit : Nat)
    (session_id : String) : List ConvRow :=
  (List.insertionSort recentRel
    (db.conversations.filter (fun r => r.session_id == session_id))).take limit

/-- `search_conversations`: rows whose user or assistant text matches
`LIKE '%' || query || '%'`, over all sessions, ordered by
`importance_score DESC, timestamp DESC`, limited (Python default 5, passed
explicitly here). -/
def search_conversations (db : MemoryDatabase) (query : String)
    (limit : Nat) : List ConvRow :=
  (List.insertionSort searchRel (db.conversations.filter (likeRow query))).take
    limit

/-- `update_user_profile`: `INSERT OR REPLACE INTO user_profile` — the row
with a conflicting key is deleted and the new row inserted with a fresh
rowid (hence at the end of the scan order). -/
def update_user_profile (db : MemoryDatabase) (key value now : String) :
    MemoryDatabase :=
  { db with
      user_profile :=
        db.user_profile.filter (fun r => r.key != key) ++ [⟨key, value, now⟩] }

/-- `get_user_profile`: `SELECT key, value FROM user_profile` turned into a
Python dict; keys are unique (primary key), iteration follows rowid order. -/
def get_user_profile (db : MemoryDatabase) : List (String × String) :=
  db.user_profile.map (fun r => (r.key, r.value))

/-- `clear_memory`: `DELETE FROM conversations; DELETE FROM
memory_summaries` — the `user_profile` table is not touched. -/
def clear_memory (db : MemoryDatabase) : MemoryDatabase :=
  { db with conversations := [], memory_summaries := [] }

end MemoryDatabase

/-! ### Profile extraction (src/memory_system.py lines 238-256) -/

/-- Python `str.lower` (ASCII folding suffices for the fixed patterns and
the scenario inputs); written over the character list so that it reduces in
the kernel, unlike `String.map`. -/
def strLower (s : String) : String := String.mk (s.toList.map Char.toLower)

/-- Model of the character class matched by Python `\w` (Unicode word
character) restricted to the repertoire these Spanish patterns and inputs
use: ASCII alphanumerics, underscore, and accented Spanish letters. -/
def isWordChar (c : Char) : Bool :=
  c.isAlphanum || c == '_' || "áéíóúüñÁÉÍÓÚÜÑ".toList.contains c

/-- The two capture classes appearing in the extraction patterns. -/
inductive CharClass
  | word
  | digit
  deriving DecidableEq, Repr

/-- Membership test of a capture class. -/
def CharClass.test : CharClass → Char → Bool
  | word, c => isWordChar c
  | digit, c => c.isDigit

/-- One extraction pattern `pre (\w+|\d+) suf`, e.g. `tengo (\d+) años` is
`⟨"tengo ", digit, " años"⟩`. -/
structure Pat where
  pre : String
  cls : CharClass
  suf : String
  deriving DecidableEq, Repr

/-- Try the pattern anchored at the start of `s`: literal prefix, then a
greedy nonempty run of class characters, then the literal suffix; returns
the captured run.  (The suffixes in use never start with a class character,
so the greedy maximal run is exactly the Python regex behaviour.) -/
def matchAt (p : Pat) (s : List Char) : Option String :=
  if p.pre.toList.isPrefixOf s then
    let rest := s.drop p.pre.toList.length
    let run := rest.takeWhile p.cls.test
    if run.isEmpty then none
    else if p.suf.toList.isPrefixOf (rest.drop run.length) then
      some (String.mk run)
    else none
  else none

/-- Python `re.search`: scan left to right, return the capture of the first
position where the whole pattern matches. -/
def searchPat (p : Pat) : List Char → Option String
  | [] => matchAt p []
  | c :: cs =>
    match matchAt p (c :: cs) with
    | some v => some v
    | none => searchPat p cs

/-- The first pattern of the list that matches somewhere in `s` wins (inner
loop of `_extract_profile_info`, without the upsert). -/
def firstMatch : List Pat → List Char → Option String
  | [], _ => none
  | p :: ps, s =>
    match searchPat p s with
    | some v => some v
    | none => firstMatch ps s

/-- The `patterns` dict of `_extract_profile_info`, in its (insertion-order
preserving) iteration order. -/
def profilePatterns : List (String × List Pat) :=
  [("name", [⟨"mi nombre es ", CharClass.word, ""⟩,
             ⟨"me llamo ", CharClass.word, ""⟩,
             ⟨"soy ", CharClass.word, ""⟩]),
   ("age", [⟨"tengo ", CharClass.digit, " años"⟩,
            ⟨"mi edad es ", CharClass.digit, ""⟩]),
   ("profession", [⟨"soy ", CharClass.word, ""⟩,
                   ⟨"trabajo como ", CharClass.word, ""⟩,
                   ⟨"estudio ", CharClass.word, ""⟩]),
   ("location", [⟨"vivo en ", CharClass.word, ""⟩,
                 ⟨"soy de ", CharClass.word, ""⟩])]

/-- Inner loop of `_extract_profile_info` for one fact type: try the
patterns in order; on the first match upsert the captured value and stop. -/
def tryPatterns (db : MemoryDatabase) (info_type now : String)
    (s : List Char) : List Pat → MemoryDatabase
  | [] => db
  | p :: ps =>
    match searchPat p s with
    | some v => db.update_user_profile info_type v now
    | none => tryPatterns db info_type now s ps

/-- `_extract_profile_info(user_message)`: lower-case the message, then for
each fact type in the fixed order upsert the first matching capture. -/
def extract_profile_info (db : MemoryDatabase) (user_message now : String) :
    MemoryDatabase :=
  let msgLower := (strLower user_message).toList
  profilePatterns.foldl (fun d tp => tryPatterns d tp.1 now msgLower tp.2) db

/-- Derived description of what one extraction call upserts: for each fact
type of the table, in table order, the capture of its first matching
pattern against the lower-cased message, if any. -/
def extractedFacts (user_message : String) : List (String × String) :=
  profilePatterns.filterMap
    (fun tp => (firstMatch tp.2 (strLower user_message).toList).map
      (fun v => (tp.1, v)))

/-! ### MemoryManager facade (src/memory_system.py lines 149-236) -/

/-- The facade state: `current_session` is the process-lifetime token
`datetime.now().strftime("%Y%m%d_%H%M%S")` fixed at construction. -/
structure MemoryManager where
  current_session : String
  deriving DecidableEq, Repr

namespace MemoryManager

/-- Facade `store_conversation`: run profile extraction on the user
message, then insert the turn tagged with `current_session`. -/
def store_conversation (mgr : MemoryManager) (db : MemoryDatabase)
    (user_message assistant_response : String) (importance : Rat)
    (now : String) : String × MemoryDatabase :=
  let db1 := extract_profile_info db user_message now
  let r := db1.store_conversation user_message assistant_response
    mgr.current_session importance now
  ("Stored conversation #" ++ toString r.1 ++ " successfully", r.2)

/-- Facade `get_context`: recency block, profile block, relevance block,
then the current message and instruction suffix; degenerates to the raw
message when nothing was collected.  NOTE (faithful to the source): the
recency query `self.db.get_recent_conversations(limit=context_limit)`
passes no `session_id`, so it uses the Python default `"default"`, not
`current_session`. -/
def get_context (_mgr : MemoryManager) (db : MemoryDatabase)
    (current_message : String) (context_limit : Nat) :
    String × MemoryDatabase :=
  let recent := db.get_recent_conversations context_limit "default"
  let profile := db.get_user_profile
  let parts1 : List String :=
    if profile.isEmpty then []
    else ["Información del usuario: " ++
      String.intercalate ", " (profile.map (fun kv => kv.1 ++ ": " ++ kv.2))]
  let parts2 : List String :=
    if recent.isEmpty then []
    else "Conversación reciente:" ::
      (((recent.drop (recent.length - 3)).reverse.map
        (fun c => ["Usuario: " ++ c.user_message,
                   "Asistente: " ++ c.assistant_response])).flatten)
  let parts3 : List String :=
    if 10 < current_message.length then
      let relevant := db.search_conversations current_message 2
      if relevant.isEmpty then []
      else "Conversaciones relevantes anteriores:" ::
        ((relevant.map
          (fun c => ["Usuario: " ++ c.user_message,
                     "Asistente: " ++ c.assistant_response])).flatten)
    else []
  let context := String.intercalate "\n" (parts1 ++ parts2 ++ parts3)
  let text :=
    if context.isEmpty then current_message
    else context ++ "\n\nUsuario actual: " ++ current_message ++
      "\n\nResponde al usuario actual teniendo en cuenta toda la información anterior:"
  (text, db)

/-- Facade `search_memory`: render the search hits, or a fixed message when
there are none. -/
def search_memory (_mgr : MemoryManager) (db : MemoryDatabase)
    (query : String) (limit : Nat) : String × MemoryDatabase :=
  let results := db.search_conversations query limit
  let text :=
    if results.isEmpty then "No conversations found"
    else String.intercalate "\n"
      ((results.map
        (fun c => ["[" ++ c.timestamp ++ "] Usuario: " ++ c.user_message,
                   "Asistente: " ++ c.assistant_response, "---"])).flatten)
  (text, db)

/-- Facade `update_profile`. -/
def update_profile (_mgr : MemoryManager) (db : MemoryDatabase)
    (key value now : String) : String × MemoryDatabase :=
  ("Updated profile: " ++ key ++ " = " ++ value,
   db.update_user_profile key value now)

/-- Escape of the characters that can occur in the stored strings, as
`json.dumps` renders them (ensure_ascii=False keeps other characters). -/
def jsonEscape (s : String) : String :=
  String.join (s.toList.map (fun c =>
    if c = '"' then "\\\""
    else if c = '\\' then "\\\\"
    else if c = '\n' then "\\n"
    else if c = '\r' then "\\r"
    else if c = '\t' then "\\t"
    else String.singleton c))

/-- `json.dumps(profile, indent=2, ensure_ascii=False)` on a dict rendered
in its iteration order. -/
def jsonDumpsIndent2 (kvs : List (String × String)) : String :=
  if kvs.isEmpty then "\x7b\x7d"
  else "\x7b\n" ++
    String.intercalate ",\n"
      (kvs.map (fun kv =>
        "  \"" ++ jsonEscape kv.1 ++ "\": \"" ++ jsonEscape kv.2 ++ "\"")) ++
    "\n\x7d"

/-- Facade `get_profile`: the profile as pretty-printed JSON, or a fixed
message when empty. -/
def get_profile (_mgr : MemoryManager) (db : MemoryDatabase) :
    String × MemoryDatabase :=
  let profile := db.get_user_profile
  let text :=
    if profile.isEmpty then "No profile information stored"
    else jsonDumpsIndent2 profile
  (text, db)

/-- Facade `clear_memory`: no confirmation, delegates to the store clear. -/
def clear_memory (_mgr : MemoryManager) (db : MemoryDatabase) :
    String × MemoryDatabase :=
  ("Memory cleared successfully", db.clear_memory)

end MemoryManager

/-- The control flow of the facade store operation with the extraction step
abstracted as a fallible function: the source wraps no handler around
`await self._extract_profile_info(user_message)`, so an extraction error
propagates (Except.error) and the insert below it is never reached. -/
def storeFlow (extract : MemoryDatabase → Except String MemoryDatabase)
    (mgr : MemoryManager) (db : MemoryDatabase)
    (user_message assistant_response : String) (importance : Rat)
    (now : String) : Except String (String × MemoryDatabase) :=
  match extract db with
  | Except.error e => Except.error e
  | Except.ok db1 =>
    let r := db1.store_conversation user_message assistant_response
      mgr.current_session importance now
    Except.ok ("Stored conversation #" ++ toString r.1 ++ " successfully", r.2)

/-- The remote tool `clear_memory` handler
(src/memory_server.py lines 372-389): `confirm` is read from the arguments
with default `False`; without it nothing is deleted. -/
def clear_memory_tool (db : MemoryDatabase) (confirm : Option Bool) :
    String × MemoryDatabase :=
  let c := confirm.getD false
  if c = false then ("Memory clear cancelled - confirmation required", db)
  else ("Memory cleared successfully",
    { db with conversations := [], memory_summaries := [] })

/-- Plain unanchored-substring test between strings, the reference search
behaviour named by the specification (not what the code implements). -/
def substrB (q s : String) : Bool :=
  s.toList.tails.any (fun t => q.toList.isPrefixOf t)

/-! ### Shared concrete scenarios -/

/-- A facade instance whose process-lifetime session token has the
`strftime("%Y%m%d_%H%M%S")` shape (in particular it is not `"default"`). -/
def mgr0 : MemoryManager := ⟨"20250101_120000"⟩

/-- State after storing turn1 = ("Mi nombre es Juan", "Hola Juan") through
the facade on an empty store. -/
def dbJuan : MemoryDatabase :=
  (mgr0.store_conversation emptyDb "Mi nombre es Juan" "Hola Juan" 1
    "2025-01-01T12:00:00").2

/-- State after additionally storing turn2 = ("Tengo 25 años",
"Qué interesante"). -/
def dbJuan2 : MemoryDatabase :=
  (mgr0.store_conversation dbJuan "Tengo 25 años" "Qué interesante" 1
    "2025-01-01T12:01:00").2

/-! ### Helper lemmas -/

/-- One extraction inner loop only rewrites the profile relation. -/
theorem tryPatterns_frame (db : MemoryDatabase) (ty now : String)
    (s : List Char) : ∀ pl : List Pat,
    (tryPatterns db ty now s pl).conversations = db.conversations ∧
    (tryPatterns db ty now s pl).memory_summaries = db.memory_summaries ∧
    (tryPatterns db ty now s pl).next_conversation_id =
      db.next_conversation_id
  | [] => ⟨rfl, rfl, rfl⟩
  | p :: ps => by
    unfold tryPatterns
    cases searchPat p s with
    | some v => exact ⟨rfl, rfl, rfl⟩
    | none => exact tryPatterns_frame db ty now s ps

/-- The whole extraction pass only rewrites the profile relation. -/
theorem extract_fold_frame (now : String) (s : List Char) :
    ∀ (tps : List (String × List Pat)) (db : MemoryDatabase),
    ((tps.foldl (fun d tp => tryPatterns d tp.1 now s tp.2) db).conversations
        = db.conversations ∧
      (tps.foldl (fun d tp => tryPatterns d tp.1 now s tp.2)
          db).memory_summaries = db.memory_summaries ∧
      (tps.foldl (fun d tp => tryPatterns d tp.1 now s tp.2)
          db).next_conversation_id = db.next_conversation_id)
  | [], db => ⟨rfl, rfl, rfl⟩
  | tp :: tps, db => by
    simp only [List.foldl_cons]
    have h1 := tryPatterns_frame db tp.1 now s tp.2
    have h2 := extract_fold_frame now s tps (tryPatterns db tp.1 now s tp.2)
    exact ⟨h2.1.trans h1.1, h2.2.1.trans h1.2.1, h2.2.2.trans h1.2.2⟩

/-- `extract_profile_info` never touches the conversations relation. -/
theorem extract_profile_info_frame (db : MemoryDatabase)
    (user_message now : String) :
    (extract_profile_info db user_message now).conversations =
        db.conversations ∧
      (extract_profile_info db user_message now).next_conversation_id =
        db.next_conversation_id := by
  have h := extract_fold_frame now (strLower user_message).toList
    profilePatterns db
  exact ⟨h.1, h.2.2⟩

/-! ### Claim C4 -/

/-- C4: after `clear()` the conversation and summary relations are empty —
`recent_conversations` and `search_conversations` return the empty sequence
for every argument — while `get_profile()` is unchanged. -/
theorem clear_asymmetry (db : MemoryDatabase) (limit : Nat)
    (sid q : String) (L : Nat) :
    db.clear_memory.conversations = [] ∧
    db.clear_memory.memory_summaries = [] ∧
    db.clear_memory.get_recent_conversations limit sid = [] ∧
    db.clear_memory.search_conversations q L = [] ∧
    db.clear_memory.get_user_profile = db.get_user_profile := by
  refine ⟨rfl, rfl, ?_, ?_, rfl⟩ <;>
    simp [MemoryDatabase.clear_memory, MemoryDatabase.get_recent_conversations,
      MemoryDatabase.search_conversations]

/-! ### Claim C8 -/

/-- C8: upserting the same key twice leaves exactly one row for that key,
holding the second value and timestamp; the full relation equals the other
rows followed by the fresh row (overwrite, not append). -/
theorem profile_upsert_overwrites (db : MemoryDatabase)
    (k v1 t1 v2 t2 : String) :
    ((db.update_user_profile k v1 t1).update_user_profile k v2 t2).user_profile
      = db.user_profile.filter (fun r => r.key != k) ++ [⟨k, v2, t2⟩] ∧
    (((db.update_user_profile k v1 t1).update_user_profile k
        v2 t2).user_profile.filter (fun r => r.key == k)) = [⟨k, v2, t2⟩] := by
  constructor
  · simp [MemoryDatabase.update_user_profile, List.filter_append,
      List.filter_filter]
  · simp [MemoryDatabase.update_user_profile, List.filter_append,
      List.filter_filter]

/-! ### Claim C9 -/

/-- C9: the remote `clear_memory` tool deletes rows only when `confirm` is
true — with the flag absent or false the state is returned unchanged with a
cancellation message — while the in-process facade clear deletes the
conversation and summary rows unconditionally (and neither touches the
profile). -/
theorem clear_requires_confirmation (db : MemoryDatabase)
    (mgr : MemoryManager) :
    clear_memory_tool db none
        = ("Memory clear cancelled - confirmation required", db) ∧
    clear_memory_tool db (some false)
        = ("Memory clear cancelled - confirmation required", db) ∧
    (clear_memory_tool db (some true)).2.conversations = [] ∧
    (clear_memory_tool db (some true)).2.memory_summaries = [] ∧
    (clear_memory_tool db (some true)).2.user_profile = db.user_profile ∧
    (clear_memory_tool db (some true)).1 = "Memory cleared successfully" ∧
    mgr.clear_memory db = ("Memory cleared successfully", db.clear_memory) ∧
    db.clear_memory.conversations = [] ∧
    db.clear_memory.memory_summaries = [] ∧
    db.clear_memory.user_profile = db.user_profile :=
  ⟨rfl, rfl, rfl, rfl, rfl, rfl, rfl, rfl, rfl, rfl⟩

/-! ### Claim C10 -/

/-- C10: the three query operations of the facade — `get_context`,
`search_memory` and `get_profile` — return the store state unchanged for
every argument: they only read. -/
theorem query_operations_read_only (mgr : MemoryManager)
    (db : MemoryDatabase) (message : String) (context_limit : Nat)
    (query : String) (limit : Nat) :
    (mgr.get_context db message context_limit).2 = db ∧
    (mgr.search_memory db query limit).2 = db ∧
    (mgr.get_profile db).2 = db :=
  ⟨rfl, rfl, rfl⟩

/-! ### Claim C2 -/

/-- C2 counterexample: the facade store control flow wraps no handler
around the extraction step, so an extraction error propagates out of the
store operation and the conversation insert below it never runs — the call
fails instead of storing the row. -/
theorem store_extraction_error_aborts :
    storeFlow (fun _ => Except.error "extraction failed") mgr0 emptyDb
        "hola" "mundo" 1 "2025-01-01T00:00:00"
      = Except.error "extraction failed" := rfl

/-- C2 as amended: the implemented extraction step is total (pure pattern
matching over the fixed valid pattern table), so the facade store operation
always succeeds and always appends the conversation row, tagged with the
session token, to the conversations relation. -/
theorem store_always_inserts (mgr : MemoryManager) (db : MemoryDatabase)
    (u a : String) (imp : Rat) (now : String) :
    storeFlow (fun d => Except.ok (extract_profile_info d u now)) mgr db
        u a imp now
      = Except.ok (mgr.store_conversation db u a imp now) ∧
    (mgr.store_conversation db u a imp now).2.conversations
      = db.conversations ++
        [⟨db.next_conversation_id, now, mgr.current_session, u, a, imp⟩] := by
  have h := extract_profile_info_frame db u now
  refine ⟨rfl, ?_⟩
  show (extract_profile_info db u now).conversations ++
      [⟨(extract_profile_info db u now).next_conversation_id, now,
        mgr.current_session, u, a, imp⟩]
    = db.conversations ++
      [⟨db.next_conversation_id, now, mgr.current_session, u, a, imp⟩]
  rw [h.1, h.2]

/-! ### Claim C3 -/

/-- C3 counterexample: after storing ("Mi nombre es Juan", "Hola Juan") and
("Tengo 25 años", "Qué interesante"), the profile does not contain
name="Juan": the extractor matches and captures from the lower-cased
message, so the stored value is "juan". -/
theorem profile_value_is_lowercased :
    ("name", "Juan") ∉ dbJuan2.get_user_profile ∧
    ("name", "juan") ∈ dbJuan2.get_user_profile := by decide

/-- C3 as amended: after the two stores the profile holds exactly
name="juan" (lower-cased capture) and age="25", extraction having fired on
both turns independently. -/
theorem profile_after_two_turns :
    dbJuan2.get_user_profile = [("name", "juan"), ("age", "25")] := rfl

/-! ### Claim C1 -/

/-- C1 failing input: a turn stored through the facade is tagged with the
session token, but the recent-conversation step of `get_context` queries
session `"default"`, so the freshly stored turn — the only and most recent
one — is absent from the next context: the rendered context has no
"Conversación reciente:" section at all, only the profile line. -/
theorem stored_turn_missing_from_recent_context :
    dbJuan.conversations =
      [⟨1, "2025-01-01T12:00:00", "20250101_120000", "Mi nombre es Juan",
        "Hola Juan", 1⟩] ∧
    dbJuan.get_recent_conversations 5 "default" = [] ∧
    dbJuan.get_recent_conversations 5 mgr0.current_session
      = dbJuan.conversations ∧
    (mgr0.get_context dbJuan "hola" 5).1
      = "Información del usuario: name: juan\n\nUsuario actual: hola\n\nResponde al usuario actual teniendo en cuenta toda la información anterior:" := by
  refine ⟨?_, ?_, ?_, ?_⟩ <;> decide

/-! ### Claim C6 -/

/-- Rendering an empty line list gives the empty string. -/
theorem intercalate_nil_eq (s : String) : String.intercalate s [] = "" := rfl

/-- The empty string is empty. -/
theorem isEmpty_empty_string : "".isEmpty = true := rfl

/-- C6: with no stored conversations and no profile facts, `get_context`
returns the raw current message unchanged — no headings, no instruction
suffix. -/
theorem context_degenerates (mgr : MemoryManager) (db : MemoryDatabase)
    (m : String) (limit : Nat) (h1 : db.conversations = [])
    (h2 : db.user_profile = []) :
    (mgr.get_context db m limit).1 = m := by
  unfold MemoryManager.get_context
  simp [MemoryDatabase.get_recent_conversations,
    MemoryDatabase.search_conversations, MemoryDatabase.get_user_profile,
    h1, h2, intercalate_nil_eq, isEmpty_empty_string]

/-- C6 witness: on the empty store, `get_context("hi")` is exactly "hi". -/
theorem context_degenerates_witness :
    emptyDb.conversations = [] ∧ emptyDb.user_profile = [] ∧
    (mgr0.get_context emptyDb "hi" 5).1 = "hi" :=
  ⟨rfl, rfl, context_degenerates mgr0 emptyDb "hi" 5 rfl rfl⟩

/-! ### Claim C7 -/

/-- The inner loop of the extractor equals: upsert the first matching
capture if there is one, otherwise leave the store unchanged. -/
theorem tryPatterns_eq (db : MemoryDatabase) (ty now : String)
    (s : List Char) : ∀ pl : List Pat,
    tryPatterns db ty now s pl =
      ((firstMatch pl s).map
        (fun v => db.update_user_profile ty v now)).getD db
  | [] => rfl
  | p :: ps => by
    cases h : searchPat p s with
    | some v => simp [tryPatterns, firstMatch, h]
    | none => simp [tryPatterns, firstMatch, h, tryPatterns_eq db ty now s ps]

/-- The extraction pass over any pattern table is the fold of the per-type
first-match upserts. -/
theorem extract_foldl_eq (now : String) (s : List Char) :
    ∀ (tps : List (String × List Pat)) (db : MemoryDatabase),
    tps.foldl (fun d tp => tryPatterns d tp.1 now s tp.2) db
      = (tps.filterMap
          (fun tp => (firstMatch tp.2 s).map (fun v => (tp.1, v)))).foldl
          (fun d kv => d.update_user_profile kv.1 kv.2 now) db
  | [], _ => rfl
  | tp :: tps, db => by
    cases h : firstMatch tp.2 s with
    | some v =>
      rw [List.foldl_cons, List.filterMap_cons, h,
        tryPatterns_eq db tp.1 now s tp.2, h]
      simp only [Option.map_some', Option.getD_some, List.foldl_cons]
      exact extract_foldl_eq now s tps _
    | none =>
      rw [List.foldl_cons, List.filterMap_cons, h,
        tryPatterns_eq db tp.1 now s tp.2, h]
      simp only [Option.map_none', Option.getD_none]
      exact extract_foldl_eq now s tps db

/-- The fact types produced by one pass are a sublist of the type column of
the pattern table. -/
theorem extract_keys_sublist (s : List Char) :
    ∀ tps : List (String × List Pat),
    ((tps.filterMap
        (fun tp => (firstMatch tp.2 s).map (fun v => (tp.1, v)))).map
      Prod.fst).Sublist (tps.map Prod.fst)
  | [] => List.Sublist.refl []
  | tp :: tps => by
    cases h : firstMatch tp.2 s with
    | some v =>
      simp only [List.filterMap_cons, h, Option.map_some', List.map_cons]
      exact (extract_keys_sublist s tps).cons₂ tp.1
    | none =>
      simp only [List.filterMap_cons, h, Option.map_none', List.map_cons]
      exact (extract_keys_sublist s tps).cons tp.1

/-- C7: one extraction call tries the fact types in the fixed order name,
age, profession, location against the lower-cased utterance; per type the
first matching pattern of its ordered list wins (`firstMatch`), upserting
at most one value for that type (the produced type column is a nodup
sublist of the fixed four-type list, in that order), each type is tried
independently of the others, and a type with no matching pattern
contributes no upsert (`filterMap` drops it). -/
theorem extraction_structure (db : MemoryDatabase) (msg now : String) :
    extract_profile_info db msg now
      = (extractedFacts msg).foldl
          (fun d kv => d.update_user_profile kv.1 kv.2 now) db ∧
    ((extractedFacts msg).map Prod.fst).Sublist
      ["name", "age", "profession", "location"] ∧
    ((extractedFacts msg).map Prod.fst).Nodup := by
  have hsub := extract_keys_sublist (strLower msg).toList profilePatterns
  refine ⟨extract_foldl_eq now (strLower msg).toList profilePatterns db,
    hsub, ?_⟩
  exact hsub.nodup (by decide)

/-! ### Claim C5 -/

/-- A store with one conversation ("ab" / "xy") used to separate SQL LIKE
from plain substring matching. -/
def dbAB : MemoryDatabase :=
  ⟨[⟨1, "2025-01-01T00:00:00", "s1", "ab", "xy", 1⟩], [], [], 2⟩

/-- C5 counterexample: for the query "_", `search_conversations` returns
the row ("ab" / "xy") although "_" is not a substring of either field —
inside the SQL LIKE pattern the underscore is a single-character wildcard,
so the result is not the set of rows containing the query as a substring. -/
theorem like_matches_non_substring :
    dbAB.search_conversations "_" 5
      = [⟨1, "2025-01-01T00:00:00", "s1", "ab", "xy", 1⟩] ∧
    substrB "_" "ab" = false ∧ substrB "_" "xy" = false := by
  refine ⟨by decide, rfl, rfl⟩

/-- C5 as amended: `search_conversations(q, L)` returns rows drawn from the
conversations of ALL sessions that match the SQL pattern `LIKE '%q%'` in
the user or assistant field (wildcards of `q` active, ASCII letters
case-insensitive), ordered by importance_score descending then timestamp
descending, at most L of them; and whenever at most L rows match, the
result is exactly the matching rows. -/
theorem search_conversations_spec (db : MemoryDatabase) (q : String)
    (L : Nat) :
    (∀ r ∈ db.search_conversations q L,
      r ∈ db.conversations ∧ likeRow q r = true) ∧
    List.Sorted searchRel (db.search_conversations q L) ∧
    (db.search_conversations q L).length ≤ L ∧
    ((db.conversations.filter (likeRow q)).length ≤ L →
      List.Perm (db.search_conversations q L)
        (db.conversations.filter (likeRow q))) := by
  unfold MemoryDatabase.search_conversations
  refine ⟨?_, ?_, ?_, ?_⟩
  · intro r hr
    have h1 : r ∈ List.insertionSort searchRel
        (db.conversations.filter (likeRow q)) := List.take_subset _ _ hr
    have h2 : r ∈ db.conversations.filter (likeRow q) :=
      (List.mem_insertionSort searchRel).mp h1
    have h3 := List.mem_filter.mp h2
    exact ⟨h3.1, h3.2⟩
  · exact (List.sorted_insertionSort searchRel _).sublist
      (List.take_sublist L _)
  · rw [List.length_take]
    exact min_le_left _ _
  · intro h
    have hlen : (List.insertionSort searchRel
        (db.conversations.filter (likeRow q))).length ≤ L := by
      rw [(List.perm_insertionSort searchRel _).length_eq]
      exact h
    rw [List.take_of_length_le hlen]
    exact List.perm_insertionSort searchRel _

/-- C5 witness: the amended search specification instantiated on the
concrete one-row store with query "a" and limit 3. -/
theorem search_conversations_spec_witness :
    (∀ r ∈ dbAB.search_conversations "a" 3,
      r ∈ dbAB.conversations ∧ likeRow "a" r = true) ∧
    List.Sorted searchRel (dbAB.search_conversations "a" 3) ∧
    (dbAB.search_conversations "a" 3).length ≤ 3 ∧
    ((dbAB.conversations.filter (likeRow "a")).length ≤ 3 →
      List.Perm (dbAB.search_conversations "a" 3)
        (dbAB.conversations.filter (likeRow "a"))) :=
  search_conversations_spec dbAB "a" 3
